import Mathlib

/- Shallow embedding of the voxel-world core of the threeJs-minecraft repository.

   Sources embedded here:
   - src/scripts/blocks.js        : the block-type table and the resource list
   - src/unnamed/part_004         : class WorldChunk (voxel storage, procedural
                                    generation, bounds checks, occlusion test)
   - src/unnamed/part_003         : class World (chunk registry, streaming,
                                    world-to-chunk coordinate transform, block
                                    mutation with neighbor visibility updates)
   - src/scripts/blocks.js, lines 155-365 : class Physics (broad/narrow phase
                                    collision detection and resolution)

   Numbers: the JS engine computes in IEEE doubles; the embedding uses exact
   arithmetic (integers for voxel/chunk coordinates, which the program keeps
   integral, rationals for generation parameters and noise samples, reals for
   the collision geometry, which involves square roots).  Noise providers
   (SimplexNoise, an external collaborator) are modelled as arbitrary function
   parameters.  Mutation of the chunk arrays and of the registry is modelled
   by explicit state passing: each JS method that mutates becomes a function
   returning the updated state. -/

/-- A voxel coordinate triple (x, y, z). -/
abbrev Coord : Type := ℤ × ℤ × ℤ

/-- One cell of a chunk's `data` array: `{ id, instanceId }`
    (src/unnamed/part_004, lines 9-15 and 49-52). -/
structure Voxel where
  id : ℕ
  instanceId : Option ℕ
  deriving DecidableEq, Repr

/-- A chunk's voxel grid `this.data`, modelled as a total function from
    coordinates to cells; out-of-bounds cells are never read or written by the
    embedded accessors, which reproduce the source's bounds checks. -/
abbrev ChunkData : Type := Coord → Voxel

/-- Embeds `this.size` of a chunk: `{ width, height }` (src/unnamed/part_003, lines 153-156). -/
structure ChunkSize where
  width : ℤ
  height : ℤ
  deriving DecidableEq, Repr

/-- Embeds `params.terrain`: `{ scale, magnitude, offset }` (src/unnamed/part_003, lines 158-165). -/
structure TerrainParams where
  scale : ℚ
  magnitude : ℚ
  offset : ℚ

/-- Embeds `blocks.empty.id` (src/scripts/blocks.js, line 34). -/
def blocks.emptyId : ℕ := 0

/-- Embeds `blocks.grass.id` (src/scripts/blocks.js, line 38). -/
def blocks.grassId : ℕ := 1

/-- Embeds `blocks.dirt.id` (src/scripts/blocks.js, line 51). -/
def blocks.dirtId : ℕ := 2

/-- A resource block type: the generation-relevant fields `id`, `scale.{x,y,z}`
    and `scarcity` of a `blocks` entry (src/scripts/blocks.js). -/
structure ResourceType where
  id : ℕ
  scaleX : ℚ
  scaleY : ℚ
  scaleZ : ℚ
  scarcity : ℚ
  deriving DecidableEq, Repr

/-- Embeds `blocks.stone` (src/scripts/blocks.js, lines 56-63): id 3, scale 30, scarcity 0.5. -/
def blocks.stone : ResourceType := { id := 3, scaleX := 30, scaleY := 30, scaleZ := 30, scarcity := 1/2 }

/-- Embeds `blocks.coalOre` (src/scripts/blocks.js, lines 64-71): id 4, scale 20, scarcity 0.5. -/
def blocks.coalOre : ResourceType := { id := 4, scaleX := 20, scaleY := 20, scaleZ := 20, scarcity := 1/2 }

/-- Embeds `blocks.ironOre` (src/scripts/blocks.js, lines 72-79): id 5, scale 60, scarcity 0.9. -/
def blocks.ironOre : ResourceType := { id := 5, scaleX := 60, scaleY := 60, scaleZ := 60, scarcity := 9/10 }

/-- Embeds `resources = [blocks.stone, blocks.coalOre, blocks.ironOre]`
    (src/scripts/blocks.js, lines 151-155) — the fixed declaration order. -/
def resources : List ResourceType := [blocks.stone, blocks.coalOre, blocks.ironOre]

/-- Embeds `WorldChunk.inBounds(x, y, z)` (src/unnamed/part_004, lines 201-209):
    `x >= 0 && x < width && y >= 0 && y < height && z >= 0 && z < width`. -/
def WorldChunk.inBounds (size : ChunkSize) (x y z : ℤ) : Bool :=
  decide (0 ≤ x ∧ x < size.width ∧ 0 ≤ y ∧ y < size.height ∧ 0 ≤ z ∧ z < size.width)

/-- Embeds `WorldChunk.getBlock(x, y, z)` (src/unnamed/part_004, lines 160-166):
    returns the cell when in bounds, `null` (here `none`) otherwise. -/
def WorldChunk.getBlock (size : ChunkSize) (d : ChunkData) (x y z : ℤ) : Option Voxel :=
  if WorldChunk.inBounds size x y z then some (d (x, y, z)) else none

/-- Embeds `WorldChunk.setBlockId(x, y, z, id)` (src/unnamed/part_004, lines 175-179):
    in-bounds guard, then `data[x][y][z].id = id`. -/
def WorldChunk.setBlockId (size : ChunkSize) (d : ChunkData) (x y z : ℤ) (id : ℕ) : ChunkData :=
  if WorldChunk.inBounds size x y z then
    fun q => if q = (x, y, z) then { d (x, y, z) with id := id } else d q
  else d

/-- Embeds `WorldChunk.setBlockInstanceId(x, y, z, instanceId)` (src/unnamed/part_004,
    lines 188-192): in-bounds guard, then `data[x][y][z].instanceId = instanceId`. -/
def WorldChunk.setBlockInstanceId (size : ChunkSize) (d : ChunkData) (x y z : ℤ)
    (instanceId : Option ℕ) : ChunkData :=
  if WorldChunk.inBounds size x y z then
    fun q => if q = (x, y, z) then { d (x, y, z) with instanceId := instanceId } else d q
  else d

/-- The id fetch `this.getBlock(x, y, z)?.id ?? blocks.empty.id` used for each
    neighbor in `isBlockObscured` (src/unnamed/part_004, lines 219-224). -/
def WorldChunk.fetchIdOrEmpty (size : ChunkSize) (d : ChunkData) (x y z : ℤ) : ℕ :=
  match WorldChunk.getBlock size d x y z with
  | some v => v.id
  | none => blocks.emptyId

/-- Embeds `WorldChunk.isBlockObscured(x, y, z)` (src/unnamed/part_004, lines 218-237):
    false if any of the six axis neighbors is empty (out-of-bounds reads count
    as empty via the `?? blocks.empty.id` fallback), true otherwise. -/
def WorldChunk.isBlockObscured (size : ChunkSize) (d : ChunkData) (x y z : ℤ) : Bool :=
  let up := WorldChunk.fetchIdOrEmpty size d x (y + 1) z
  let down := WorldChunk.fetchIdOrEmpty size d x (y - 1) z
  let left := WorldChunk.fetchIdOrEmpty size d (x + 1) y z
  let right := WorldChunk.fetchIdOrEmpty size d (x - 1) y z
  let forward := WorldChunk.fetchIdOrEmpty size d x y (z + 1)
  let back := WorldChunk.fetchIdOrEmpty size d x y (z - 1)
  if up = blocks.emptyId ∨ down = blocks.emptyId ∨ left = blocks.emptyId ∨
      right = blocks.emptyId ∨ forward = blocks.emptyId ∨ back = blocks.emptyId then
    false
  else
    true

/-- The list `[a, a+1, ..., a+n-1]`: a counted `for` loop's index sequence. -/
def intRange (a : ℤ) (n : ℕ) : List ℤ :=
  (List.range n).map fun (i : ℕ) => a + (i : ℤ)

/-- The iteration sequence of the triple loop in `generateResources`
    (src/unnamed/part_004, lines 63-65): `x` outer, then `y`, then `z`,
    each from 0 to the corresponding size bound (exclusive). -/
def resourceTriples (size : ChunkSize) : List Coord :=
  (intRange 0 size.width.toNat).flatMap fun x =>
    (intRange 0 size.height.toNat).flatMap fun y =>
      (intRange 0 size.width.toNat).map fun z => (x, y, z)

/-- The iteration sequence of the loops in `generateTerrain`
    (src/unnamed/part_004, lines 81-97): `x` outer, then `z`, then
    `y` from 0 to `size.height` INCLUSIVE (the loop condition is
    `y <= this.size.height`). -/
def terrainTriples (size : ChunkSize) : List Coord :=
  (intRange 0 size.width.toNat).flatMap fun x =>
    (intRange 0 size.width.toNat).flatMap fun z =>
      (intRange 0 (size.height.toNat + 1)).map fun y => (x, y, z)

/-- A 3D noise field: the external `SimplexNoise.noise3d` collaborator. -/
abbrev Noise3 : Type := ℚ → ℚ → ℚ → ℚ

/-- A 2D noise field: the external `SimplexNoise.noise` collaborator. -/
abbrev Noise2 : Type := ℚ → ℚ → ℚ

/-- The threshold test of `generateResources` (src/unnamed/part_004, lines
    66-70): sample the 3D noise at the world-absolute position divided per axis
    by the resource's scale, and compare strictly against its scarcity. -/
def qualifiesResource (noise3 : Noise3) (posX posY posZ : ℚ) (r : ResourceType)
    (q : Coord) : Prop :=
  noise3 ((posX + q.1) / r.scaleX) ((posY + q.2.1) / r.scaleY) ((posZ + q.2.2) / r.scaleZ)
    > r.scarcity

instance (noise3 : Noise3) (posX posY posZ : ℚ) (r : ResourceType) (q : Coord) :
    Decidable (qualifiesResource noise3 posX posY posZ r q) := by
  unfold qualifiesResource; infer_instance

/-- One iteration of the `generateResources` triple loop for resource `r` at
    voxel `p` (src/unnamed/part_004, lines 66-72): `setBlockId` when the noise
    sample exceeds the scarcity, otherwise leave the data unchanged. -/
def resourceStep (size : ChunkSize) (noise3 : Noise3) (posX posY posZ : ℚ) (r : ResourceType)
    (d : ChunkData) (p : Coord) : ChunkData :=
  if qualifiesResource noise3 posX posY posZ r p then
    WorldChunk.setBlockId size d p.1 p.2.1 p.2.2 r.id
  else d

/-- Embeds `WorldChunk.generateResources(rng)` (src/unnamed/part_004, lines 60-77):
    for each resource in `resources` declaration order, run the triple loop. -/
def WorldChunk.generateResources (size : ChunkSize) (noise3 : Noise3) (posX posY posZ : ℚ)
    (d : ChunkData) : ChunkData :=
  resources.foldl
    (fun dcur r => (resourceTriples size).foldl (resourceStep size noise3 posX posY posZ r) dcur)
    d

/-- The per-column height of `generateTerrain` (src/unnamed/part_004, lines
    83-94): `scaleNoise = offset + magnitude * noise2(...)`,
    `height = floor(size.height * scaleNoise)` clamped by
    `Math.max(0, Math.min(height, size.height - 1))`. -/
def terrainHeight (size : ChunkSize) (tp : TerrainParams) (noise2 : Noise2) (posX posZ : ℚ)
    (x z : ℤ) : ℤ :=
  let value := noise2 ((posX + x) / tp.scale) ((posZ + z) / tp.scale)
  let scaleNoise := tp.offset + tp.magnitude * value
  let height := ⌊(size.height : ℚ) * scaleNoise⌋
  max 0 (min height (size.height - 1))

/-- One iteration of the `generateTerrain` loops at voxel `p = (x, y, z)`
    (src/unnamed/part_004, lines 97-105).  The read
    `this.getBlock(x, y, z).id` in the first branch is the current value of
    cell `p` itself (`d p`), which the in-bounds check of `getBlock` admits
    because `y < height` forces `y` into bounds there. -/
def terrainStep (size : ChunkSize) (tp : TerrainParams) (noise2 : Noise2) (posX posZ : ℚ)
    (d : ChunkData) (p : Coord) : ChunkData :=
  let hgt := terrainHeight size tp noise2 posX posZ p.1 p.2.2
  if p.2.1 < hgt ∧ (d p).id = blocks.emptyId then
    WorldChunk.setBlockId size d p.1 p.2.1 p.2.2 blocks.dirtId
  else if p.2.1 = hgt then
    WorldChunk.setBlockId size d p.1 p.2.1 p.2.2 blocks.grassId
  else if p.2.1 > hgt then
    WorldChunk.setBlockId size d p.1 p.2.1 p.2.2 blocks.emptyId
  else d

/-- Embeds `WorldChunk.generateTerrain(rng)` (src/unnamed/part_004, lines 79-108):
    the x/z/y loops, flattened into a fold over their iteration sequence. -/
def WorldChunk.generateTerrain (size : ChunkSize) (tp : TerrainParams) (noise2 : Noise2)
    (posX posZ : ℚ) (d : ChunkData) : ChunkData :=
  (terrainTriples size).foldl (terrainStep size tp noise2 posX posZ) d

/-- Embeds `WorldChunk.initializeTerrain()` (src/unnamed/part_004, lines 42-58):
    every cell `{ id: blocks.empty.id, instanceId: null }`. -/
def WorldChunk.initializeTerrain : ChunkData :=
  fun _ => { id := blocks.emptyId, instanceId := none }

/-- The cell-level effect of one `resourceStep` iteration, in the shape
    required by `foldl_pointwise`. -/
def resourceCellEffect (size : ChunkSize) (noise3 : Noise3) (posX posY posZ : ℚ)
    (r : ResourceType) (p : Coord) (v : Voxel) : Voxel :=
  if qualifiesResource noise3 posX posY posZ r p ∧ WorldChunk.inBounds size p.1 p.2.1 p.2.2 then
    { v with id := r.id }
  else v

/-- The cell-level effect of one `terrainStep` iteration, in the shape
    required by `foldl_pointwise`. -/
def terrainCellEffect (size : ChunkSize) (tp : TerrainParams) (noise2 : Noise2)
    (posX posZ : ℚ) (p : Coord) (v : Voxel) : Voxel :=
  let hgt := terrainHeight size tp noise2 posX posZ p.1 p.2.2
  if p.2.1 < hgt ∧ v.id = blocks.emptyId then
    (if WorldChunk.inBounds size p.1 p.2.1 p.2.2 then { v with id := blocks.dirtId } else v)
  else if p.2.1 = hgt then
    (if WorldChunk.inBounds size p.1 p.2.1 p.2.2 then { v with id := blocks.grassId } else v)
  else if p.2.1 > hgt then
    (if WorldChunk.inBounds size p.1 p.2.1 p.2.2 then { v with id := blocks.emptyId } else v)
  else v

/-- The result record of `World.worldToChunkCoords` (src/unnamed/part_003,
    lines 279-295): `{ chunk: {x, z}, block: {x, y, z} }`. -/
structure WorldCoords where
  chunkX : ℤ
  chunkZ : ℤ
  blockX : ℤ
  blockY : ℤ
  blockZ : ℤ
  deriving DecidableEq, Repr

/-- Embeds `World.worldToChunkCoords(x, y, z)` (src/unnamed/part_003, lines 279-295)
    on the integer voxel coordinates every block-level caller passes.
    `Math.floor(x / width)` on integers is floor division, `Int.fdiv`;
    `worldToChunkCoords_chunk_floor` below proves it equal to
    `⌊x / width⌋` for the positive widths the program uses. -/
def World.worldToChunkCoords (width : ℤ) (x y z : ℤ) : WorldCoords :=
  let chunkX := x.fdiv width
  let chunkZ := z.fdiv width
  { chunkX := chunkX
    chunkZ := chunkZ
    blockX := x - width * chunkX
    blockY := y
    blockZ := z - width * chunkZ }

/-- Embeds `World.worldToChunkCoords` applied to the continuous player position in
    `getVisivleChunks` (src/unnamed/part_003, lines 199-206); only the chunk
    part of the result is consumed there.  `Math.floor` on a rational is `⌊·⌋`. -/
def World.worldToChunkCoordsPos (width : ℤ) (x z : ℚ) : ℤ × ℤ :=
  (⌊x / (width : ℚ)⌋, ⌊z / (width : ℚ)⌋)

/-- One chunk held by the `World` group: its `userData = { x, z }` key, its
    `loaded` flag and its voxel data (src/unnamed/part_003 and part_004). -/
structure Chunk where
  cx : ℤ
  cz : ℤ
  loaded : Bool
  data : ChunkData

/-- The chunk key `(userData.x, userData.z)` of a registered chunk. -/
def Chunk.key (c : Chunk) : ℤ × ℤ := (c.cx, c.cz)

/-- The `World` state the claims touch: `chunkSize`, `drawDistance` and the
    registry `this.children` (src/unnamed/part_003, lines 136-165). -/
structure World where
  chunkSize : ChunkSize
  drawDistance : ℕ
  children : List Chunk

/-- Embeds `World.getChunk(chunkX, chunkZ)` (src/unnamed/part_003, lines 297-302):
    `children.find` on the `userData` key. -/
def World.getChunk (w : World) (chunkX chunkZ : ℤ) : Option Chunk :=
  w.children.find? fun chunk => decide (chunk.cx = chunkX ∧ chunk.cz = chunkZ)

/-- Embeds `World.getBlock(x, y, z)` (src/unnamed/part_003, lines 264-277): resolve
    the owning chunk; delegate only when it exists and `loaded` is true,
    otherwise return `null`. -/
def World.getBlock (w : World) (x y z : ℤ) : Option Voxel :=
  let coords := World.worldToChunkCoords w.chunkSize.width x y z
  match World.getChunk w coords.chunkX coords.chunkZ with
  | some chunk =>
      if chunk.loaded then
        WorldChunk.getBlock w.chunkSize chunk.data coords.blockX coords.blockY coords.blockZ
      else none
  | none => none

/-- In-place mutation of the chunk object returned by `getChunk`: the first
    chunk of `children` with the given key has its data replaced; the JS
    `chunk.addBlock(...)` etc. mutate exactly that object. -/
def World.modifyFirst : List Chunk → ℤ → ℤ → (ChunkData → ChunkData) → List Chunk
  | [], _, _, _ => []
  | c :: rest, cx, cz, f =>
    if c.cx = cx ∧ c.cz = cz then { c with data := f c.data } :: rest
    else c :: World.modifyFirst rest cx cz f

/-- The `World`-state effect of mutating the chunk object found by `getChunk`. -/
def World.modifyChunk (w : World) (chunkX chunkZ : ℤ) (f : ChunkData → ChunkData) : World :=
  { w with children := World.modifyFirst w.children chunkX chunkZ f }

/-- Modelled from the spec: `WorldChunk.addBlockInstance(x, y, z)` is called by
    `World.revealBlock` (src/unnamed/part_003, line 373) but its definition is
    not in the sources.  Per spec section 4.2 the chunk exposes
    `addInstance(localCoord)`, and per the section 3 invariant a render
    instance slot is held exactly by voxels that are non-empty and not
    obscured and do not already hold one; the numeric slot value (a per-type
    counter) is not observable in these claims and is abstracted as 0. -/
def WorldChunk.addBlockInstance (size : ChunkSize) (d : ChunkData) (x y z : ℤ) : ChunkData :=
  match WorldChunk.getBlock size d x y z with
  | some v =>
      if v.id ≠ blocks.emptyId ∧ v.instanceId = none ∧
          WorldChunk.isBlockObscured size d x y z = false then
        WorldChunk.setBlockInstanceId size d x y z (some 0)
      else d
  | none => d

/-- Modelled from the spec: `WorldChunk.deleteBlockInstance(x, y, z)` is called
    by `World.hideBlock` (src/unnamed/part_003, line 388) but its definition is
    not in the sources.  Per spec section 4.2 the chunk exposes
    `removeInstance(localCoord)`: the voxel's render instance slot is cleared. -/
def WorldChunk.deleteBlockInstance (size : ChunkSize) (d : ChunkData) (x y z : ℤ) : ChunkData :=
  WorldChunk.setBlockInstanceId size d x y z none

/-- Modelled from the spec: `WorldChunk.addBlock(x, y, z, blockId)` is called
    by `World.addBlock` (src/unnamed/part_003, line 325) but its definition is
    not in the sources.  Per spec section 4.1, on success the target voxel is
    mutated to the new id; the freshly placed voxel then receives an instance
    slot per the section 3 invariant (`addBlockInstance` checks it). -/
def WorldChunk.addBlock (size : ChunkSize) (d : ChunkData) (x y z : ℤ) (blockId : ℕ) : ChunkData :=
  WorldChunk.addBlockInstance size (WorldChunk.setBlockId size d x y z blockId) x y z

/-- Modelled from the spec: `WorldChunk.removeBlock(x, y, z)` is called by
    `World.removeBlock` (src/unnamed/part_003, line 350) but its definition is
    not in the sources.  Per spec sections 4.1 and 7, the target voxel becomes
    empty; its render instance slot is dropped with it. -/
def WorldChunk.removeBlock (size : ChunkSize) (d : ChunkData) (x y z : ℤ) : ChunkData :=
  WorldChunk.setBlockId size (WorldChunk.deleteBlockInstance size d x y z) x y z blocks.emptyId

/-- Embeds `World.revealBlock(x, y, z)` (src/unnamed/part_003, lines 368-375):
    if the owning chunk exists, `chunk.addBlockInstance` at the local coords. -/
def World.revealBlock (w : World) (x y z : ℤ) : World :=
  let coords := World.worldToChunkCoords w.chunkSize.width x y z
  match World.getChunk w coords.chunkX coords.chunkZ with
  | some _ =>
      World.modifyChunk w coords.chunkX coords.chunkZ fun d =>
        WorldChunk.addBlockInstance w.chunkSize d coords.blockX coords.blockY coords.blockZ
  | none => w

/-- Embeds `World.hideBlock(x, y, z)` (src/unnamed/part_003, lines 383-390): if the
    owning chunk exists AND `chunk.isBlockObscured` holds at the local coords,
    `chunk.deleteBlockInstance` there. -/
def World.hideBlock (w : World) (x y z : ℤ) : World :=
  let coords := World.worldToChunkCoords w.chunkSize.width x y z
  match World.getChunk w coords.chunkX coords.chunkZ with
  | some chunk =>
      if WorldChunk.isBlockObscured w.chunkSize chunk.data coords.blockX coords.blockY
          coords.blockZ then
        World.modifyChunk w coords.chunkX coords.chunkZ fun d =>
          WorldChunk.deleteBlockInstance w.chunkSize d coords.blockX coords.blockY coords.blockZ
      else w
  | none => w

/-- Embeds `World.addBlock(x, y, z, blockId)` (src/unnamed/part_003, lines 320-334):
    if the owning chunk exists, `chunk.addBlock` at the local coordinates,
    then `revealBlock` on the six axis neighbors (each call re-resolving its
    own chunk on the current state). -/
def World.addBlock (w : World) (x y z : ℤ) (blockId : ℕ) : World :=
  let coords := World.worldToChunkCoords w.chunkSize.width x y z
  match World.getChunk w coords.chunkX coords.chunkZ with
  | some _ =>
      let w1 := World.modifyChunk w coords.chunkX coords.chunkZ fun d =>
        WorldChunk.addBlock w.chunkSize d coords.blockX coords.blockY coords.blockZ blockId
      (((((w1.revealBlock (x - 1) y z).revealBlock (x + 1) y z).revealBlock
          x (y - 1) z).revealBlock x (y + 1) z).revealBlock x y (z - 1)).revealBlock x y (z + 1)
  | none => w

/-- Embeds `World.removeBlock(x, y, z)` (src/unnamed/part_003, lines 342-360): if the
    owning chunk exists, `chunk.removeBlock` at the local coordinates, then
    `hideBlock` on the six axis neighbors. -/
def World.removeBlock (w : World) (x y z : ℤ) : World :=
  let coords := World.worldToChunkCoords w.chunkSize.width x y z
  match World.getChunk w coords.chunkX coords.chunkZ with
  | some _ =>
      let w1 := World.modifyChunk w coords.chunkX coords.chunkZ fun d =>
        WorldChunk.removeBlock w.chunkSize d coords.blockX coords.blockY coords.blockZ
      (((((w1.hideBlock (x - 1) y z).hideBlock (x + 1) y z).hideBlock
          x (y - 1) z).hideBlock x (y + 1) z).hideBlock x y (z - 1)).hideBlock x y (z + 1)
  | none => w

/-- Embeds `World.getVisivleChunks(player)` (src/unnamed/part_003, lines 196-215):
    the player's chunk from `worldToChunkCoords(px, py - height/2, pz)` (only
    x and z decide the chunk), then the square of side `2*drawDistance + 1`
    around it, x outer loop, z inner loop. -/
def World.getVisivleChunks (w : World) (px pz : ℚ) : List (ℤ × ℤ) :=
  let c := World.worldToChunkCoordsPos w.chunkSize.width px pz
  (intRange (c.1 - w.drawDistance) (2 * w.drawDistance + 1)).flatMap fun x =>
    (intRange (c.2 - w.drawDistance) (2 * w.drawDistance + 1)).map fun z => (x, z)

/-- Embeds `World.getChunksToAdd(visibleChunks)` (src/unnamed/part_003, lines
    217-228): visible chunks whose key no registered chunk carries. -/
def World.getChunksToAdd (w : World) (visibleChunks : List (ℤ × ℤ)) : List (ℤ × ℤ) :=
  visibleChunks.filter fun chunk =>
    ((w.children.map Chunk.key).find? fun uc =>
      decide (chunk.1 = uc.1 ∧ chunk.2 = uc.2)).isNone

/-- Embeds `World.removeUnusedChunks(visibleChunks)` (src/unnamed/part_003, lines
    230-247): every registered chunk whose key is not visible is disposed and
    removed from `children`; the kept children are those with a visible key. -/
def World.removeUnusedChunks (w : World) (visibleChunks : List (ℤ × ℤ)) : World :=
  { w with
    children := w.children.filter fun chunk =>
      (visibleChunks.find? fun vc => decide (vc.1 = chunk.cx ∧ vc.2 = chunk.cz)).isSome }

/-- Embeds `World.generateChunk(x, z)` (src/unnamed/part_003, lines 249-262): a new
    chunk is registered immediately; with the default `asyncLoading = true` its
    `generate()` is deferred to `requestIdleCallback`, so at the time `update`
    returns the chunk is present with `loaded = false` and an empty data
    array (modelled as the all-empty grid, unreadable while not loaded). -/
def World.generateChunk (w : World) (x z : ℤ) : World :=
  { w with
    children := w.children ++
      [{ cx := x, cz := z, loaded := false, data := WorldChunk.initializeTerrain }] }

/-- Embeds `World.update(player)` (src/unnamed/part_003, lines 186-194): compute the
    visible square, the chunks to add (against the pre-removal registry),
    remove the unused chunks, then register each missing chunk. -/
def World.update (w : World) (px pz : ℚ) : World :=
  let visibleChunks := World.getVisivleChunks w px pz
  let chunkToAdd := World.getChunksToAdd w visibleChunks
  let w1 := World.removeUnusedChunks w visibleChunks
  chunkToAdd.foldl (fun wc c => World.generateChunk wc c.1 c.2) w1

/-- A THREE.Vector3-style triple of reals. -/
structure Vec3 where
  x : ℝ
  y : ℝ
  z : ℝ

/-- Embeds `THREE.Vector3.length()`: the Euclidean norm. -/
noncomputable def Vec3.length (v : Vec3) : ℝ :=
  Real.sqrt (v.x * v.x + v.y * v.y + v.z * v.z)

/-- Embeds `THREE.Vector3.normalize()`: `divideScalar(this.length() || 1)` — division
    by the length, or by 1 when the length is 0 (the zero vector stays zero). -/
noncomputable def Vec3.normalize (v : Vec3) : Vec3 :=
  let l := v.length
  let l1 := if l = 0 then 1 else l
  { x := v.x / l1, y := v.y / l1, z := v.z / l1 }

/-- Embeds `Math.sign`: 1 on positives, -1 on negatives, 0 at 0. -/
noncomputable def jsSign (t : ℝ) : ℝ :=
  if 0 < t then 1 else if t < 0 then -1 else 0

/-- The agent consumed by the collision engine: `player.position` (the TOP of
    the bounding cylinder), `player.radius`, `player.height`
    (src/unnamed/part_000, lines 5-7: radius 0.5, height 1.75). -/
structure PlayerShape where
  position : Vec3
  radius : ℝ
  height : ℝ

/-- A contact record pushed by `Physics.narrowPhase`
    (src/scripts/blocks.js, lines 294-299). -/
structure Contact where
  block : Vec3
  contactPoint : Vec3
  normal : Vec3
  overlap : ℝ

/-- Embeds `Physics.pointInPlayerBoundingCylinder(p, player)` (src/scripts/blocks.js,
    lines 356-364): vertical offset strictly inside half the height and
    horizontal squared distance strictly inside the squared radius. -/
noncomputable def Physics.pointInPlayerBoundingCylinder (p : Vec3) (player : PlayerShape) : Prop :=
  let dx := p.x - player.position.x
  let dy := p.y - (player.position.y - player.height / 2)
  let dz := p.z - player.position.z
  let r_sq := dx * dx + dz * dz
  |dy| < player.height / 2 ∧ r_sq < player.radius * player.radius

noncomputable instance (p : Vec3) (player : PlayerShape) :
    Decidable (Physics.pointInPlayerBoundingCylinder p player) := by
  unfold Physics.pointInPlayerBoundingCylinder; infer_instance

/-- Step 1 of `Physics.narrowPhase` for one candidate block
    (src/scripts/blocks.js, lines 266-271): the point of the unit cube around
    the integer block center closest to the player's axis, clamping each
    coordinate with `Math.max(c - 0.5, Math.min(v, c + 0.5))`; the y clamp
    uses the player's mid-height point `p.y - height/2`. -/
noncomputable def Physics.closestPoint (block : Vec3) (player : PlayerShape) : Vec3 :=
  { x := max (block.x - 1/2) (min player.position.x (block.x + 1/2))
    y := max (block.y - 1/2) (min (player.position.y - player.height / 2) (block.y + 1/2))
    z := max (block.z - 1/2) (min player.position.z (block.z + 1/2)) }

/-- The body of the `Physics.narrowPhase` loop for one candidate
    (src/scripts/blocks.js, lines 264-302): emit a contact exactly when the
    closest point lies strictly inside the bounding cylinder; the overlap is
    `overlapY = height/2 - |dy|` when `overlapY < overlapXZ`, with normal
    `(0, -sign(dy), 0)`, and otherwise `overlapXZ = radius - sqrt(dx²+dz²)`
    with the normalized horizontal vector `(-dx, 0, -dz)` as normal. -/
noncomputable def Physics.narrowPhaseContact (block : Vec3) (player : PlayerShape) :
    Option Contact :=
  let cp := Physics.closestPoint block player
  let dx := cp.x - player.position.x
  let dy := cp.y - (player.position.y - player.height / 2)
  let dz := cp.z - player.position.z
  if Physics.pointInPlayerBoundingCylinder cp player then
    let overlapY := player.height / 2 - |dy|
    let overlapXZ := player.radius - Real.sqrt (dx * dx + dz * dz)
    if overlapY < overlapXZ then
      some { block := block, contactPoint := cp,
             normal := { x := 0, y := -jsSign dy, z := 0 }, overlap := overlapY }
    else
      some { block := block, contactPoint := cp,
             normal := Vec3.normalize { x := -dx, y := 0, z := -dz }, overlap := overlapXZ }
  else none

/-- Embeds `Physics.narrowPhase(candidates, player)` (src/scripts/blocks.js, lines
    261-308): the collision list collected by the candidate loop. -/
noncomputable def Physics.narrowPhase (candidates : List Vec3) (player : PlayerShape) :
    List Contact :=
  candidates.filterMap fun block => Physics.narrowPhaseContact block player

/-- The contact comparator of `Physics.resolveCollisions`
    (src/scripts/blocks.js, lines 316-318): the JS arrow function
    `(a, b) => a.overlap < b.overlap` returns a BOOLEAN, which
    `Array.prototype.sort` coerces with ToNumber: `true` becomes 1 and
    `false` becomes 0.  This is the comparator the engine actually consults;
    the resulting sort order for inconsistent comparators is
    implementation-defined by the ECMAScript standard, so only the comparator
    itself — not a resulting permutation — is embeddable. -/
noncomputable def Physics.sortComparator (a b : Contact) : ℤ :=
  if a.overlap < b.overlap then 1 else 0

/-- The sequential resolution loop of `Physics.resolveCollisions`
    (src/scripts/blocks.js, lines 320-327): for each contact in the given
    order, translate the player's position by `normal * overlap`. -/
noncomputable def Physics.resolveLoop (collisions : List Contact) (player : PlayerShape) :
    PlayerShape :=
  collisions.foldl
    (fun pl collision =>
      { pl with position :=
          { x := pl.position.x + collision.normal.x * collision.overlap
            y := pl.position.y + collision.normal.y * collision.overlap
            z := pl.position.z + collision.normal.z * collision.overlap } })
    player

/-- A registry-less world (no chunk is present anywhere). -/
def emptyWorld : World := { chunkSize := { width := 64, height := 32 }, drawDistance := 3, children := [] }

/-- A chunk registered but not yet generated (`loaded = false`), as `update`
    leaves freshly streamed-in chunks before their idle callback runs. -/
def unloadedChunk : Chunk := { cx := 0, cz := 0, loaded := false, data := WorldChunk.initializeTerrain }

/-- A world holding only `unloadedChunk`. -/
def unloadedWorld : World :=
  { chunkSize := { width := 64, height := 32 }, drawDistance := 3, children := [unloadedChunk] }

/-- A 3 by 3 by 3 chunk size for the concrete mutation scenarios. -/
def sizeThree : ChunkSize := { width := 3, height := 3 }

/-- Scenario data for block removal: every cell solid (id 2), except the
    center (1,1,1), which is stone (id 3) and obscured (no instance), and
    (1,2,1) above it, which is grass (id 1) and visible (instance 0). -/
def removalData : ChunkData := fun q =>
  if q = (1, 1, 1) then { id := 3, instanceId := none }
  else if q = (1, 2, 1) then { id := 1, instanceId := some 0 }
  else { id := 2, instanceId := none }

/-- A loaded single-chunk world over `removalData`. -/
def removalWorld : World :=
  { chunkSize := sizeThree, drawDistance := 3,
    children := [{ cx := 0, cz := 0, loaded := true, data := removalData }] }

/-- Scenario data for block addition: every cell solid (id 2), except the
    center (1,1,1), which is stone with render instance 4 (visible: the cell
    above it is empty), and (1,2,1), which is empty. -/
def additionData : ChunkData := fun q =>
  if q = (1, 1, 1) then { id := 3, instanceId := some 4 }
  else if q = (1, 2, 1) then { id := 0, instanceId := none }
  else { id := 2, instanceId := none }

/-- A loaded single-chunk world over `additionData`. -/
def additionWorld : World :=
  { chunkSize := sizeThree, drawDistance := 3,
    children := [{ cx := 0, cz := 0, loaded := true, data := additionData }] }

/-- Scenario data with an EMPTY center cell that nevertheless carries a render
    instance entry, surrounded by solid cells on all six sides. -/
def emptyCenterData : ChunkData := fun q =>
  if q = (1, 1, 1) then { id := 0, instanceId := some 7 }
  else { id := 2, instanceId := none }

/-- A loaded single-chunk world over `emptyCenterData`. -/
def emptyCenterWorld : World :=
  { chunkSize := sizeThree, drawDistance := 3,
    children := [{ cx := 0, cz := 0, loaded := true, data := emptyCenterData }] }

/-- A contact whose overlap is 1/4; other fields irrelevant to the sort. -/
noncomputable def contactSmall : Contact :=
  { block := { x := 0, y := 0, z := 0 }, contactPoint := { x := 0, y := 0, z := 0 },
    normal := { x := 0, y := 1, z := 0 }, overlap := 1/4 }

/-- A contact whose overlap is 1/2; other fields irrelevant to the sort. -/
noncomputable def contactLarge : Contact :=
  { block := { x := 0, y := 1, z := 0 }, contactPoint := { x := 0, y := 1, z := 0 },
    normal := { x := 0, y := 1, z := 0 }, overlap := 1/2 }

/-- The player of the collision witness scenario: radius 1/2, height 7/4 (the
    source defaults), positioned so that the closest point of the unit cube at
    the origin is strictly inside the bounding cylinder. -/
noncomputable def narrowPlayer : PlayerShape :=
  { position := { x := 0, y := 71/40, z := 4/5 }, radius := 1/2, height := 7/4 }

/-- The candidate cube of the collision witness scenario. -/
noncomputable def narrowBlock : Vec3 := { x := 0, y := 0, z := 0 }

/-- The local `dx` of the narrow-phase loop (src/scripts/blocks.js, line 273). -/
noncomputable def Physics.contactDX (block : Vec3) (player : PlayerShape) : ℝ :=
  (Physics.closestPoint block player).x - player.position.x

/-- The local `dy` of the narrow-phase loop (src/scripts/blocks.js, line 274):
    offset from the player's mid-height axis point. -/
noncomputable def Physics.contactDY (block : Vec3) (player : PlayerShape) : ℝ :=
  (Physics.closestPoint block player).y - (player.position.y - player.height / 2)

/-- The local `dz` of the narrow-phase loop (src/scripts/blocks.js, line 275). -/
noncomputable def Physics.contactDZ (block : Vec3) (player : PlayerShape) : ℝ :=
  (Physics.closestPoint block player).z - player.position.z

/-- The chunk object `generateChunk` registers for a missing key. -/
def streamChunk (c : ℤ × ℤ) : Chunk :=
  { cx := c.1, cz := c.2, loaded := false, data := WorldChunk.initializeTerrain }

/-- The 3-by-3 chunk square around chunk (0, 0), in registration order. -/
def visibleSquare0 : List (ℤ × ℤ) :=
  [(-1, -1), (-1, 0), (-1, 1), (0, -1), (0, 0), (0, 1), (1, -1), (1, 0), (1, 1)]

/-- The 3-by-3 chunk square around chunk (5, 5), in registration order. -/
def visibleSquare5 : List (ℤ × ℤ) :=
  [(4, 4), (4, 5), (4, 6), (5, 4), (5, 5), (5, 6), (6, 4), (6, 5), (6, 6)]

/-- The streaming scenario's initial world: default chunk size 64 by 32,
    `drawDistance := 1`, empty registry. -/
def streamWorldInit : World :=
  { chunkSize := { width := 64, height := 32 }, drawDistance := 1, children := [] }

/-- Like `emptyCenterData` but with a solid center: differs from it only at
    the center cell (1, 1, 1). -/
def solidCenterData : ChunkData := fun q =>
  if q = (1, 1, 1) then { id := 5, instanceId := none }
  else { id := 2, instanceId := none }

theorem mem_intRange {a : ℤ} {n : ℕ} {t : ℤ} :
    t ∈ intRange a n ↔ a ≤ t ∧ t < a + n := by
  unfold intRange
  simp only [List.mem_map, List.mem_range]
  constructor
  · rintro ⟨i, hi, rfl⟩
    omega
  · rintro ⟨h1, h2⟩
    exact ⟨(t - a).toNat, by omega, by omega⟩

theorem intRange_nodup (a : ℤ) (n : ℕ) : (intRange a n).Nodup := by
  unfold intRange
  refine (List.nodup_range n).map ?_
  intro i j h
  have h' : a + (i : ℤ) = a + (j : ℤ) := h
  omega

/-- Helper for reasoning about the generation loops: a loop body that, at each
    iteration `p`, reads only cell `p` and writes only cell `p` (this is checked
    for each concrete body by a dedicated lemma below). -/
theorem foldl_pointwise (step : ChunkData → Coord → ChunkData) (f : Coord → Voxel → Voxel)
    (hstep : ∀ d p q, step d p q = if q = p then f p (d p) else d q) :
    ∀ (L : List Coord), L.Nodup → ∀ (d : ChunkData) (q : Coord),
      (L.foldl step d) q = if q ∈ L then f q (d q) else d q := by
  intro L
  induction L with
  | nil => intro _ d q; simp
  | cons p rest ih =>
    intro hnd d q
    have hp : p ∉ rest := (List.nodup_cons.mp hnd).1
    have hrest : rest.Nodup := (List.nodup_cons.mp hnd).2
    simp only [List.foldl_cons]
    rw [ih hrest]
    by_cases hq : q ∈ rest
    · have hqp : q ≠ p := fun h => hp (h ▸ hq)
      rw [if_pos hq, hstep, if_neg hqp, if_pos (List.mem_cons_of_mem p hq)]
    · rw [if_neg hq, hstep]
      by_cases hqp : q = p
      · rw [if_pos hqp, if_pos (by simp [hqp])]
        subst hqp; rfl
      · rw [if_neg hqp, if_neg (by simp [hqp, hq])]

theorem nodup_flatMap3 (L1 L2 L3 : List ℤ) (g : ℤ → ℤ → ℤ → Coord)
    (hg : ∀ a b c a' b' c', g a b c = g a' b' c' → a = a' ∧ b = b' ∧ c = c')
    (h1 : L1.Nodup) (h2 : L2.Nodup) (h3 : L3.Nodup) :
    (L1.flatMap fun a => L2.flatMap fun b => L3.map fun c => g a b c).Nodup := by
  apply List.nodup_flatMap.mpr
  constructor
  · intro a _
    apply List.nodup_flatMap.mpr
    constructor
    · intro b _
      exact h3.map fun c c' h => (hg a b c a b c' h).2.2
    · refine h2.imp ?_
      intro b b' hne
      intro t htb htb'
      simp only [List.mem_map] at htb htb'
      obtain ⟨c, _, rfl⟩ := htb
      obtain ⟨c', _, h⟩ := htb'
      exact hne ((hg _ _ _ _ _ _ h.symm).2.1)
  · refine h1.imp ?_
    intro a a' hne
    intro t hta hta'
    simp only [List.mem_flatMap, List.mem_map] at hta hta'
    obtain ⟨b, _, c, _, rfl⟩ := hta
    obtain ⟨b', _, c', _, h⟩ := hta'
    exact hne ((hg _ _ _ _ _ _ h.symm).1)

theorem resourceTriples_nodup (size : ChunkSize) : (resourceTriples size).Nodup := by
  unfold resourceTriples
  exact nodup_flatMap3 _ _ _ (fun x y z => (x, y, z))
    (fun a b c a' b' c' h => by
      simp only [Prod.mk.injEq] at h
      exact ⟨h.1, h.2.1, h.2.2⟩)
    (intRange_nodup 0 _) (intRange_nodup 0 _) (intRange_nodup 0 _)

theorem terrainTriples_nodup (size : ChunkSize) : (terrainTriples size).Nodup := by
  unfold terrainTriples
  exact nodup_flatMap3 _ _ _ (fun x z y => (x, y, z))
    (fun a b c a' b' c' h => by
      simp only [Prod.mk.injEq] at h
      exact ⟨h.1, h.2.2, h.2.1⟩)
    (intRange_nodup 0 _) (intRange_nodup 0 _) (intRange_nodup 0 _)

theorem mem_resourceTriples {size : ChunkSize} {q : Coord} :
    q ∈ resourceTriples size ↔
      0 ≤ q.1 ∧ q.1 < (size.width.toNat : ℤ) ∧ 0 ≤ q.2.1 ∧ q.2.1 < (size.height.toNat : ℤ) ∧
        0 ≤ q.2.2 ∧ q.2.2 < (size.width.toNat : ℤ) := by
  obtain ⟨qx, qy, qz⟩ := q
  unfold resourceTriples
  simp only [List.mem_flatMap, List.mem_map, mem_intRange]
  constructor
  · rintro ⟨x, hx, y, hy, z, hz, heq⟩
    obtain ⟨rfl, rfl, rfl⟩ : x = qx ∧ y = qy ∧ z = qz := by
      simpa [Prod.ext_iff, and_comm, eq_comm] using heq
    exact ⟨by omega, by omega, by omega, by omega, by omega, by omega⟩
  · rintro ⟨h1, h2, h3, h4, h5, h6⟩
    exact ⟨qx, by omega, qy, by omega, qz, by omega, rfl⟩

theorem mem_terrainTriples {size : ChunkSize} {q : Coord} :
    q ∈ terrainTriples size ↔
      0 ≤ q.1 ∧ q.1 < (size.width.toNat : ℤ) ∧ 0 ≤ q.2.1 ∧ q.2.1 ≤ (size.height.toNat : ℤ) ∧
        0 ≤ q.2.2 ∧ q.2.2 < (size.width.toNat : ℤ) := by
  obtain ⟨qx, qy, qz⟩ := q
  unfold terrainTriples
  simp only [List.mem_flatMap, List.mem_map, mem_intRange]
  constructor
  · rintro ⟨x, hx, z, hz, y, hy, heq⟩
    obtain ⟨rfl, rfl, rfl⟩ : x = qx ∧ y = qy ∧ z = qz := by
      simpa [Prod.ext_iff, and_comm, eq_comm] using heq
    refine ⟨by omega, by omega, by omega, ?_, by omega, by omega⟩
    have := hy.2
    push_cast at this
    omega
  · rintro ⟨h1, h2, h3, h4, h5, h6⟩
    refine ⟨qx, by omega, qz, by omega, qy, ⟨by omega, ?_⟩, rfl⟩
    push_cast
    omega

theorem resourceStep_pointwise (size : ChunkSize) (noise3 : Noise3) (posX posY posZ : ℚ)
    (r : ResourceType) (d : ChunkData) (p q : Coord) :
    resourceStep size noise3 posX posY posZ r d p q =
      if q = p then resourceCellEffect size noise3 posX posY posZ r p (d p) else d q := by
  unfold resourceStep resourceCellEffect WorldChunk.setBlockId
  by_cases hq : qualifiesResource noise3 posX posY posZ r p
  · rw [if_pos hq]
    by_cases hb : WorldChunk.inBounds size p.1 p.2.1 p.2.2
    · rw [if_pos hb]
      by_cases hqp : q = p
      · subst hqp
        simp [hq, hb]
      · simp [hqp]
    · rw [if_neg hb]
      by_cases hqp : q = p
      · subst hqp; simp [hq, hb]
      · simp [hqp]
  · rw [if_neg hq]
    by_cases hqp : q = p
    · subst hqp; simp [hq]
    · simp [hqp]

theorem terrainStep_pointwise (size : ChunkSize) (tp : TerrainParams) (noise2 : Noise2)
    (posX posZ : ℚ) (d : ChunkData) (p q : Coord) :
    terrainStep size tp noise2 posX posZ d p q =
      if q = p then terrainCellEffect size tp noise2 posX posZ p (d p) else d q := by
  unfold terrainStep terrainCellEffect WorldChunk.setBlockId
  by_cases hqp : q = p
  · subst hqp
    by_cases h1 : q.2.1 < terrainHeight size tp noise2 posX posZ q.1 q.2.2 ∧
        (d q).id = blocks.emptyId
    · simp only [if_pos h1]
      by_cases hb : WorldChunk.inBounds size q.1 q.2.1 q.2.2
      · simp [hb]
      · simp [hb]
    · simp only [if_neg h1]
      by_cases h2 : q.2.1 = terrainHeight size tp noise2 posX posZ q.1 q.2.2
      · simp only [if_pos h2]
        by_cases hb : WorldChunk.inBounds size q.1 q.2.1 q.2.2
        · simp [hb]
        · simp [hb]
      · simp only [if_neg h2]
        by_cases h3 : q.2.1 > terrainHeight size tp noise2 posX posZ q.1 q.2.2
        · simp only [if_pos h3]
          by_cases hb : WorldChunk.inBounds size q.1 q.2.1 q.2.2
          · simp [hb]
          · simp [hb]
        · simp [if_neg h3]
  · by_cases h1 : p.2.1 < terrainHeight size tp noise2 posX posZ p.1 p.2.2 ∧
        (d p).id = blocks.emptyId
    · simp only [if_pos h1]
      by_cases hb : WorldChunk.inBounds size p.1 p.2.1 p.2.2
      · simp [hb, hqp]
      · simp [hb, hqp]
    · simp only [if_neg h1]
      by_cases h2 : p.2.1 = terrainHeight size tp noise2 posX posZ p.1 p.2.2
      · simp only [if_pos h2]
        by_cases hb : WorldChunk.inBounds size p.1 p.2.1 p.2.2
        · simp [hb, hqp]
        · simp [hb, hqp]
      · simp only [if_neg h2]
        by_cases h3 : p.2.1 > terrainHeight size tp noise2 posX posZ p.1 p.2.2
        · simp only [if_pos h3]
          by_cases hb : WorldChunk.inBounds size p.1 p.2.1 p.2.2
          · simp [hb, hqp]
          · simp [hb, hqp]
        · simp [if_neg h3, hqp]

theorem fdiv_eq_rat_floor (x w : ℤ) (hw : 0 < w) :
    x.fdiv w = ⌊(x : ℚ) / (w : ℚ)⌋ := by
  rw [Int.fdiv_eq_ediv x hw.le]
  have hw' : ((w.toNat : ℕ) : ℤ) = w := Int.toNat_of_nonneg hw.le
  calc x / w = x / ((w.toNat : ℕ) : ℤ) := by rw [hw']
    _ = ⌊(x : ℚ) / ((w.toNat : ℕ) : ℚ)⌋ := (Rat.floor_intCast_div_natCast x w.toNat).symm
    _ = ⌊(x : ℚ) / (w : ℚ)⌋ := by
        have hwq : ((w.toNat : ℕ) : ℚ) = (w : ℚ) := by exact_mod_cast hw'
        rw [hwq]

/-- C4: for integer world coordinates and a positive chunk width,
    `worldToChunkCoords` computes the chunk indices by floor division (not
    truncation), passes `y` through, keeps both local offsets in `[0, width)`
    — including for negative inputs — and recombining
    `width * chunk + local` returns the original coordinate. -/
theorem worldToChunkCoords_floor_range_roundtrip (width x y z : ℤ) (hw : 0 < width) :
    (World.worldToChunkCoords width x y z).chunkX = ⌊(x : ℚ) / (width : ℚ)⌋ ∧
    (World.worldToChunkCoords width x y z).chunkZ = ⌊(z : ℚ) / (width : ℚ)⌋ ∧
    (World.worldToChunkCoords width x y z).blockY = y ∧
    (0 ≤ (World.worldToChunkCoords width x y z).blockX ∧
      (World.worldToChunkCoords width x y z).blockX < width) ∧
    (0 ≤ (World.worldToChunkCoords width x y z).blockZ ∧
      (World.worldToChunkCoords width x y z).blockZ < width) ∧
    width * (World.worldToChunkCoords width x y z).chunkX +
      (World.worldToChunkCoords width x y z).blockX = x ∧
    width * (World.worldToChunkCoords width x y z).chunkZ +
      (World.worldToChunkCoords width x y z).blockZ = z := by
  have hwQ : (0 : ℚ) < (width : ℚ) := by exact_mod_cast hw
  have hfx := fdiv_eq_rat_floor x width hw
  have hfz := fdiv_eq_rat_floor z width hw
  have hx0 : (0 : ℚ) ≤ (x : ℚ) - (⌊(x : ℚ) / (width : ℚ)⌋ : ℚ) * (width : ℚ) :=
    Int.sub_floor_div_mul_nonneg (x : ℚ) hwQ
  have hx1 : (x : ℚ) - (⌊(x : ℚ) / (width : ℚ)⌋ : ℚ) * (width : ℚ) < (width : ℚ) :=
    Int.sub_floor_div_mul_lt (x : ℚ) hwQ
  have hz0 : (0 : ℚ) ≤ (z : ℚ) - (⌊(z : ℚ) / (width : ℚ)⌋ : ℚ) * (width : ℚ) :=
    Int.sub_floor_div_mul_nonneg (z : ℚ) hwQ
  have hz1 : (z : ℚ) - (⌊(z : ℚ) / (width : ℚ)⌋ : ℚ) * (width : ℚ) < (width : ℚ) :=
    Int.sub_floor_div_mul_lt (z : ℚ) hwQ
  unfold World.worldToChunkCoords
  refine ⟨hfx, hfz, rfl, ⟨?_, ?_⟩, ⟨?_, ?_⟩, by ring, by ring⟩
  · rw [hfx]
    rw [mul_comm] at hx0
    exact_mod_cast hx0
  · rw [hfx]
    rw [mul_comm] at hx1
    exact_mod_cast hx1
  · rw [hfz]
    rw [mul_comm] at hz0
    exact_mod_cast hz0
  · rw [hfz]
    rw [mul_comm] at hz1
    exact_mod_cast hz1

theorem worldToChunkCoords_floor_range_roundtrip_witness :
    0 ≤ (World.worldToChunkCoords 64 (-5) 7 (-130)).blockX ∧
    (World.worldToChunkCoords 64 (-5) 7 (-130)).blockX < 64 ∧
    0 ≤ (World.worldToChunkCoords 64 (-5) 7 (-130)).blockZ ∧
    (World.worldToChunkCoords 64 (-5) 7 (-130)).blockZ < 64 ∧
    64 * (World.worldToChunkCoords 64 (-5) 7 (-130)).chunkX +
      (World.worldToChunkCoords 64 (-5) 7 (-130)).blockX = -5 ∧
    64 * (World.worldToChunkCoords 64 (-5) 7 (-130)).chunkZ +
      (World.worldToChunkCoords 64 (-5) 7 (-130)).blockZ = -130 := by
  obtain ⟨-, -, -, ⟨h1, h2⟩, ⟨h3, h4⟩, h5, h6⟩ :=
    worldToChunkCoords_floor_range_roundtrip 64 (-5) 7 (-130) (by norm_num)
  exact ⟨h1, h2, h3, h4, h5, h6⟩

theorem fetchIdOrEmpty_ne_empty_iff (size : ChunkSize) (d : ChunkData) (x y z : ℤ) :
    WorldChunk.fetchIdOrEmpty size d x y z ≠ blocks.emptyId ↔
      ∃ v : Voxel, WorldChunk.getBlock size d x y z = some v ∧ v.id ≠ blocks.emptyId := by
  unfold WorldChunk.fetchIdOrEmpty
  cases h : WorldChunk.getBlock size d x y z with
  | none => simp
  | some v => simp

/-- C8: `isBlockObscured` is true exactly when each of the six axis-adjacent
    lookups (up, down, left, right, forward, back) succeeds — that is, falls
    inside the chunk's local bounds — and yields a non-empty voxel; hence a
    voxel with any empty or out-of-bounds neighbor is not obscured. -/
theorem isBlockObscured_iff_neighbors (size : ChunkSize) (d : ChunkData) (x y z : ℤ) :
    WorldChunk.isBlockObscured size d x y z = true ↔
      (∃ v : Voxel, WorldChunk.getBlock size d x (y + 1) z = some v ∧ v.id ≠ blocks.emptyId) ∧
      (∃ v : Voxel, WorldChunk.getBlock size d x (y - 1) z = some v ∧ v.id ≠ blocks.emptyId) ∧
      (∃ v : Voxel, WorldChunk.getBlock size d (x + 1) y z = some v ∧ v.id ≠ blocks.emptyId) ∧
      (∃ v : Voxel, WorldChunk.getBlock size d (x - 1) y z = some v ∧ v.id ≠ blocks.emptyId) ∧
      (∃ v : Voxel, WorldChunk.getBlock size d x y (z + 1) = some v ∧ v.id ≠ blocks.emptyId) ∧
      (∃ v : Voxel, WorldChunk.getBlock size d x y (z - 1) = some v ∧ v.id ≠ blocks.emptyId) := by
  unfold WorldChunk.isBlockObscured
  simp only [← fetchIdOrEmpty_ne_empty_iff]
  by_cases hc : WorldChunk.fetchIdOrEmpty size d x (y + 1) z = blocks.emptyId ∨
      WorldChunk.fetchIdOrEmpty size d x (y - 1) z = blocks.emptyId ∨
      WorldChunk.fetchIdOrEmpty size d (x + 1) y z = blocks.emptyId ∨
      WorldChunk.fetchIdOrEmpty size d (x - 1) y z = blocks.emptyId ∨
      WorldChunk.fetchIdOrEmpty size d x y (z + 1) = blocks.emptyId ∨
      WorldChunk.fetchIdOrEmpty size d x y (z - 1) = blocks.emptyId
  · rw [if_pos hc]
    constructor
    · intro habs
      exact absurd habs (by simp)
    · rintro ⟨n1, n2, n3, n4, n5, n6⟩
      rcases hc with h | h | h | h | h | h
      · exact absurd h n1
      · exact absurd h n2
      · exact absurd h n3
      · exact absurd h n4
      · exact absurd h n5
      · exact absurd h n6
  · rw [if_neg hc]
    push_neg at hc
    exact ⟨fun _ => ⟨hc.1, hc.2.1, hc.2.2.1, hc.2.2.2.1, hc.2.2.2.2.1, hc.2.2.2.2.2⟩,
      fun _ => rfl⟩

/-- C9: `World.getBlock` returns the unknown result (`none`) whenever the
    owning chunk is absent from the registry or not yet `loaded`, and
    `WorldChunk.getBlock` returns `none` whenever the local coordinates fall
    outside the chunk's bounds.  All three functions are pure lookups in this
    embedding, mirroring the source paths, which perform no assignment. -/
theorem getBlock_unknown_cases :
    (∀ (w : World) (x y z : ℤ),
        World.getChunk w (World.worldToChunkCoords w.chunkSize.width x y z).chunkX
            (World.worldToChunkCoords w.chunkSize.width x y z).chunkZ = none →
          World.getBlock w x y z = none) ∧
    (∀ (w : World) (x y z : ℤ) (c : Chunk),
        World.getChunk w (World.worldToChunkCoords w.chunkSize.width x y z).chunkX
            (World.worldToChunkCoords w.chunkSize.width x y z).chunkZ = some c →
          c.loaded = false → World.getBlock w x y z = none) ∧
    (∀ (size : ChunkSize) (d : ChunkData) (x y z : ℤ),
        WorldChunk.inBounds size x y z = false → WorldChunk.getBlock size d x y z = none) := by
  refine ⟨?_, ?_, ?_⟩
  · intro w x y z h
    simp only [World.getBlock]
    rw [h]
  · intro w x y z c h hl
    simp only [World.getBlock]
    rw [h]
    simp [hl]
  · intro size d x y z h
    unfold WorldChunk.getBlock
    rw [h]
    simp

theorem getBlock_unknown_witness :
    World.getBlock emptyWorld 5 9 12 = none ∧
    World.getBlock unloadedWorld 3 5 7 = none ∧
    WorldChunk.getBlock { width := 64, height := 32 } WorldChunk.initializeTerrain 64 0 0 = none :=
  ⟨getBlock_unknown_cases.1 emptyWorld 5 9 12 rfl,
   getBlock_unknown_cases.2.1 unloadedWorld 3 5 7 unloadedChunk rfl rfl,
   getBlock_unknown_cases.2.2 { width := 64, height := 32 } WorldChunk.initializeTerrain
     64 0 0 (by decide)⟩

/-- C2 (refutation of the claimed comparator): the comparator actually passed
    to `Array.prototype.sort` by `resolveCollisions` is the boolean predicate
    `a.overlap < b.overlap` coerced to 1 or 0.  It is never negative, so it is
    not a signed numeric comparison: on the pair with overlaps 1/4 and 1/2 it
    returns 1 — the positive value that instructs the sort to place the
    SMALLER overlap after the larger — and on the reversed pair it returns 0
    (a tie), not a positive value.  An ascending numeric comparator would have
    to return a negative number on the first pair. -/
theorem sortComparator_boolean_not_signed :
    (∀ a b : Contact, 0 ≤ Physics.sortComparator a b) ∧
    Physics.sortComparator contactSmall contactLarge = 1 ∧
    Physics.sortComparator contactLarge contactSmall = 0 ∧
    ¬ Physics.sortComparator contactSmall contactLarge < 0 := by
  have h1 : Physics.sortComparator contactSmall contactLarge = 1 := by
    unfold Physics.sortComparator contactSmall contactLarge
    rw [if_pos (by norm_num)]
  refine ⟨?_, h1, ?_, ?_⟩
  · intro a b
    unfold Physics.sortComparator
    split_ifs <;> norm_num
  · unfold Physics.sortComparator contactSmall contactLarge
    rw [if_neg (by norm_num)]
  · rw [h1]
    norm_num

/-- C3: the narrow phase emits a contact for a candidate cube exactly when the
    clamped closest point lies strictly inside the bounding cylinder
    (`|dy| < height/2` and `dx² + dz² < radius²`, both strict); the emitted
    overlap is the smaller of the vertical overlap `height/2 - |dy|` and the
    radial overlap `radius - sqrt(dx² + dz²)`, and the normal is
    `(0, -sign(dy), 0)` when the vertical overlap is strictly smaller, else
    the normalized horizontal vector `(-dx, 0, -dz)`. -/
theorem narrowPhaseContact_characterization (block : Vec3) (player : PlayerShape) :
    ((Physics.narrowPhaseContact block player).isSome = true ↔
      |Physics.contactDY block player| < player.height / 2 ∧
        Physics.contactDX block player * Physics.contactDX block player +
            Physics.contactDZ block player * Physics.contactDZ block player <
          player.radius * player.radius) ∧
    ∀ c : Contact, Physics.narrowPhaseContact block player = some c →
      c.block = block ∧
      c.contactPoint = Physics.closestPoint block player ∧
      c.overlap =
        min (player.height / 2 - |Physics.contactDY block player|)
          (player.radius -
            Real.sqrt (Physics.contactDX block player * Physics.contactDX block player +
              Physics.contactDZ block player * Physics.contactDZ block player)) ∧
      c.normal =
        (if player.height / 2 - |Physics.contactDY block player| <
            player.radius -
              Real.sqrt (Physics.contactDX block player * Physics.contactDX block player +
                Physics.contactDZ block player * Physics.contactDZ block player) then
          { x := 0, y := -jsSign (Physics.contactDY block player), z := 0 }
        else
          Vec3.normalize
            { x := -Physics.contactDX block player, y := 0,
              z := -Physics.contactDZ block player }) := by
  unfold Physics.narrowPhaseContact Physics.contactDX Physics.contactDY Physics.contactDZ
  dsimp only
  by_cases h : Physics.pointInPlayerBoundingCylinder (Physics.closestPoint block player) player
  · rw [if_pos h]
    constructor
    · refine iff_of_true ?_ h
      split_ifs <;> rfl
    · intro c hc
      split_ifs at hc with h2
      · obtain rfl := Option.some.inj hc
        refine ⟨rfl, rfl, (min_eq_left h2.le).symm, ?_⟩
        rw [if_pos h2]
      · obtain rfl := Option.some.inj hc
        refine ⟨rfl, rfl, (min_eq_right (not_lt.mp h2)).symm, ?_⟩
        rw [if_neg h2]
  · rw [if_neg h]
    constructor
    · exact iff_of_false (by simp) h
    · intro c hc
      exact absurd hc (by simp)

theorem narrowPhaseContact_witness :
    (Physics.narrowPhaseContact narrowBlock narrowPlayer).isSome = true ∧
    |Physics.contactDY narrowBlock narrowPlayer| < narrowPlayer.height / 2 ∧
    Physics.contactDX narrowBlock narrowPlayer * Physics.contactDX narrowBlock narrowPlayer +
        Physics.contactDZ narrowBlock narrowPlayer * Physics.contactDZ narrowBlock narrowPlayer <
      narrowPlayer.radius * narrowPlayer.radius := by
  have hcp : Physics.closestPoint narrowBlock narrowPlayer = { x := 0, y := 1/2, z := 1/2 } := by
    unfold Physics.closestPoint narrowBlock narrowPlayer
    have e1 : min (0 : ℝ) (0 + 1/2) = 0 := min_eq_left (by norm_num)
    have e2 : min ((71/40 : ℝ) - 7/4 / 2) (0 + 1/2) = 1/2 :=
      (min_eq_right (by norm_num)).trans (by norm_num)
    have e3 : min ((4/5 : ℝ)) (0 + 1/2) = 1/2 :=
      (min_eq_right (by norm_num)).trans (by norm_num)
    rw [e1, e2, e3]
    have f1 : max ((0 : ℝ) - 1/2) 0 = 0 := max_eq_right (by norm_num)
    have f2 : max ((0 : ℝ) - 1/2) (1/2) = 1/2 := max_eq_right (by norm_num)
    rw [f1, f2]
  have hdy : Physics.contactDY narrowBlock narrowPlayer = -(2/5) := by
    unfold Physics.contactDY
    rw [hcp]
    show (1/2 : ℝ) - ((71/40) - (7/4) / 2) = -(2/5)
    norm_num
  have hdx : Physics.contactDX narrowBlock narrowPlayer = 0 := by
    unfold Physics.contactDX
    rw [hcp]
    show (0 : ℝ) - 0 = 0
    norm_num
  have hdz : Physics.contactDZ narrowBlock narrowPlayer = -(3/10) := by
    unfold Physics.contactDZ
    rw [hcp]
    show (1/2 : ℝ) - 4/5 = -(3/10)
    norm_num
  have hA : |Physics.contactDY narrowBlock narrowPlayer| < narrowPlayer.height / 2 := by
    rw [hdy]
    show |(-(2/5) : ℝ)| < (7/4) / 2
    rw [abs_neg, abs_of_pos (by norm_num)]
    norm_num
  have hB : Physics.contactDX narrowBlock narrowPlayer * Physics.contactDX narrowBlock narrowPlayer +
      Physics.contactDZ narrowBlock narrowPlayer * Physics.contactDZ narrowBlock narrowPlayer <
      narrowPlayer.radius * narrowPlayer.radius := by
    rw [hdx, hdz]
    show (0 : ℝ) * 0 + -(3/10) * -(3/10) < (1/2) * (1/2)
    norm_num
  exact ⟨(narrowPhaseContact_characterization narrowBlock narrowPlayer).1.mpr ⟨hA, hB⟩, hA, hB⟩

theorem inBounds_iff (size : ChunkSize) (x y z : ℤ) :
    WorldChunk.inBounds size x y z = true ↔
      0 ≤ x ∧ x < size.width ∧ 0 ≤ y ∧ y < size.height ∧ 0 ≤ z ∧ z < size.width := by
  unfold WorldChunk.inBounds
  exact decide_eq_true_iff

theorem inBounds_mem_resourceTriples {size : ChunkSize} {q : Coord}
    (h : WorldChunk.inBounds size q.1 q.2.1 q.2.2 = true) : q ∈ resourceTriples size := by
  rw [inBounds_iff] at h
  rw [mem_resourceTriples]
  obtain ⟨h1, h2, h3, h4, h5, h6⟩ := h
  refine ⟨h1, by omega, h3, by omega, h5, by omega⟩

theorem inBounds_mem_terrainTriples {size : ChunkSize} {q : Coord}
    (h : WorldChunk.inBounds size q.1 q.2.1 q.2.2 = true) : q ∈ terrainTriples size := by
  rw [inBounds_iff] at h
  rw [mem_terrainTriples]
  obtain ⟨h1, h2, h3, h4, h5, h6⟩ := h
  refine ⟨h1, by omega, h3, by omega, h5, by omega⟩

theorem resourcePass_cell (size : ChunkSize) (noise3 : Noise3) (posX posY posZ : ℚ)
    (r : ResourceType) (d : ChunkData) (q : Coord) :
    ((resourceTriples size).foldl (resourceStep size noise3 posX posY posZ r) d) q =
      if q ∈ resourceTriples size then
        resourceCellEffect size noise3 posX posY posZ r q (d q)
      else d q :=
  foldl_pointwise _ _ (resourceStep_pointwise size noise3 posX posY posZ r)
    (resourceTriples size) (resourceTriples_nodup size) d q

theorem terrainPass_cell (size : ChunkSize) (tp : TerrainParams) (noise2 : Noise2)
    (posX posZ : ℚ) (d : ChunkData) (q : Coord) :
    ((terrainTriples size).foldl (terrainStep size tp noise2 posX posZ) d) q =
      if q ∈ terrainTriples size then
        terrainCellEffect size tp noise2 posX posZ q (d q)
      else d q :=
  foldl_pointwise _ _ (terrainStep_pointwise size tp noise2 posX posZ)
    (terrainTriples size) (terrainTriples_nodup size) d q

/-- C7: `generateResources` walks the resource types in their declaration
    order `[stone, coalOre, ironOre]`; a voxel ends up holding a resource id
    exactly when some type's 3D noise sample at the world-absolute coordinates
    (divided per axis by the type's scale) strictly exceeds its scarcity, and
    the LAST such type in declaration order wins; otherwise the prior id is
    kept.  The instance slot of the cell is never touched. -/
theorem generateResources_lastWriterWins (size : ChunkSize) (noise3 : Noise3)
    (posX posY posZ : ℚ) (d : ChunkData) (q : Coord)
    (hb : WorldChunk.inBounds size q.1 q.2.1 q.2.2 = true) :
    resources = [blocks.stone, blocks.coalOre, blocks.ironOre] ∧
    ((WorldChunk.generateResources size noise3 posX posY posZ d) q).id =
      ((((resources.filter fun r =>
            decide (qualifiesResource noise3 posX posY posZ r q)).getLast?).map
          ResourceType.id).getD ((d q).id)) ∧
    ((WorldChunk.generateResources size noise3 posX posY posZ d) q).instanceId =
      (d q).instanceId := by
  have hmem : q ∈ resourceTriples size := inBounds_mem_resourceTriples hb
  refine ⟨rfl, ?_⟩
  unfold WorldChunk.generateResources
  simp only [resources, List.foldl_cons, List.foldl_nil]
  rw [resourcePass_cell, if_pos hmem, resourcePass_cell, if_pos hmem,
    resourcePass_cell, if_pos hmem]
  by_cases q1 : qualifiesResource noise3 posX posY posZ blocks.stone q <;>
    by_cases q2 : qualifiesResource noise3 posX posY posZ blocks.coalOre q <;>
      by_cases q3 : qualifiesResource noise3 posX posY posZ blocks.ironOre q <;>
        simp [resourceCellEffect, q1, q2, q3, hb]

theorem generateResources_witness :
    WorldChunk.inBounds { width := 1, height := 1 } 0 0 0 = true ∧
    ((WorldChunk.generateResources { width := 1, height := 1 } (fun _ _ _ => (1 : ℚ)) 0 0 0
        WorldChunk.initializeTerrain) (0, 0, 0)).id = 5 := by
  have hb : WorldChunk.inBounds { width := 1, height := 1 } 0 0 0 = true := by decide
  have h := generateResources_lastWriterWins { width := 1, height := 1 }
    (fun _ _ _ => (1 : ℚ)) 0 0 0 WorldChunk.initializeTerrain (0, 0, 0) hb
  refine ⟨hb, ?_⟩
  rw [h.2.1]
  norm_num [resources, qualifiesResource, blocks.stone, blocks.coalOre, blocks.ironOre,
    List.filter, WorldChunk.initializeTerrain]

/-- C6: `generateTerrain` gives each in-bounds voxel of a column with height
    `terrainHeight` (the clamped floor of `chunkHeight * (offset + magnitude *
    noise)`) the id: dirt below the height only where the voxel is still
    empty (resource placements beneath the surface are preserved), grass at
    exactly the height (overwriting anything), and empty above it.  In the
    fixed scenario `chunkSize = {width: 4, height: 4}`, `magnitude = 0`,
    `offset = 1/2`, every column's height is 2 whatever the noise, so
    `y = 0, 1` become dirt where still empty, `y = 2` grass, `y = 3` empty. -/
theorem generateTerrain_column_shape :
    (∀ (size : ChunkSize) (tp : TerrainParams) (noise2 : Noise2) (posX posZ : ℚ)
        (d : ChunkData) (x y z : ℤ),
        WorldChunk.inBounds size x y z = true →
          ((WorldChunk.generateTerrain size tp noise2 posX posZ d) (x, y, z)).id =
            (if y < terrainHeight size tp noise2 posX posZ x z then
              (if (d (x, y, z)).id = blocks.emptyId then blocks.dirtId else (d (x, y, z)).id)
            else if y = terrainHeight size tp noise2 posX posZ x z then blocks.grassId
            else blocks.emptyId)) ∧
    (∀ (s : ℚ) (noise2 : Noise2) (posX posZ : ℚ) (x z : ℤ),
        terrainHeight { width := 4, height := 4 }
          { scale := s, magnitude := 0, offset := 1/2 } noise2 posX posZ x z = 2) ∧
    (∀ (s : ℚ) (noise2 : Noise2) (posX posZ : ℚ) (d : ChunkData) (x y z : ℤ),
        WorldChunk.inBounds { width := 4, height := 4 } x y z = true →
          ((WorldChunk.generateTerrain { width := 4, height := 4 }
              { scale := s, magnitude := 0, offset := 1/2 } noise2 posX posZ d) (x, y, z)).id =
            (if y < 2 then
              (if (d (x, y, z)).id = blocks.emptyId then blocks.dirtId else (d (x, y, z)).id)
            else if y = 2 then blocks.grassId
            else blocks.emptyId)) := by
  have hgen : ∀ (size : ChunkSize) (tp : TerrainParams) (noise2 : Noise2) (posX posZ : ℚ)
      (d : ChunkData) (x y z : ℤ),
      WorldChunk.inBounds size x y z = true →
        ((WorldChunk.generateTerrain size tp noise2 posX posZ d) (x, y, z)).id =
          (if y < terrainHeight size tp noise2 posX posZ x z then
            (if (d (x, y, z)).id = blocks.emptyId then blocks.dirtId else (d (x, y, z)).id)
          else if y = terrainHeight size tp noise2 posX posZ x z then blocks.grassId
          else blocks.emptyId) := by
    intro size tp noise2 posX posZ d x y z hb
    have hmem : ((x, y, z) : Coord) ∈ terrainTriples size :=
      inBounds_mem_terrainTriples (q := (x, y, z)) hb
    unfold WorldChunk.generateTerrain
    rw [terrainPass_cell, if_pos hmem]
    unfold terrainCellEffect
    dsimp only
    set hgt := terrainHeight size tp noise2 posX posZ x z with hh
    by_cases h1 : y < hgt
    · by_cases h2 : (d (x, y, z)).id = blocks.emptyId
      · rw [if_pos ⟨h1, h2⟩, if_pos hb]
        simp [h1, h2]
      · have hc1 : ¬(y < hgt ∧ (d (x, y, z)).id = blocks.emptyId) := fun hc => h2 hc.2
        have h3 : ¬ y = hgt := by omega
        have h4 : ¬ y > hgt := by omega
        rw [if_neg hc1, if_neg h3, if_neg h4]
        simp [h1, h2]
    · have hc1 : ¬(y < hgt ∧ (d (x, y, z)).id = blocks.emptyId) := fun hc => h1 hc.1
      by_cases h3 : y = hgt
      · rw [if_neg hc1, if_pos h3, if_pos hb]
        simp [h1, h3]
      · have h4 : y > hgt := by omega
        rw [if_neg hc1, if_neg h3, if_pos h4, if_pos hb]
        simp [h1, h3]
  have hheight : ∀ (s : ℚ) (noise2 : Noise2) (posX posZ : ℚ) (x z : ℤ),
      terrainHeight { width := 4, height := 4 }
        { scale := s, magnitude := 0, offset := 1/2 } noise2 posX posZ x z = 2 := by
    intro s noise2 posX posZ x z
    unfold terrainHeight
    dsimp only
    have h1 : (1/2 : ℚ) + 0 * noise2 ((posX + (x : ℚ)) / s) ((posZ + (z : ℚ)) / s) = 1/2 := by
      ring
    rw [h1]
    norm_num
  refine ⟨hgen, hheight, ?_⟩
  intro s noise2 posX posZ d x y z hb
  rw [hgen _ _ _ _ _ _ _ _ _ hb, hheight s noise2 posX posZ x z]

theorem generateTerrain_witness :
    WorldChunk.inBounds { width := 4, height := 4 } 1 2 1 = true ∧
    ((WorldChunk.generateTerrain { width := 4, height := 4 }
        { scale := 1, magnitude := 0, offset := 1/2 } (fun _ _ => 0) 0 0
        WorldChunk.initializeTerrain) (1, 2, 1)).id = blocks.grassId ∧
    ((WorldChunk.generateTerrain { width := 4, height := 4 }
        { scale := 1, magnitude := 0, offset := 1/2 } (fun _ _ => 0) 0 0
        WorldChunk.initializeTerrain) (1, 3, 1)).id = blocks.emptyId ∧
    ((WorldChunk.generateTerrain { width := 4, height := 4 }
        { scale := 1, magnitude := 0, offset := 1/2 } (fun _ _ => 0) 0 0
        WorldChunk.initializeTerrain) (1, 0, 1)).id = blocks.dirtId := by
  have hb2 : WorldChunk.inBounds { width := 4, height := 4 } 1 2 1 = true := by decide
  have hb3 : WorldChunk.inBounds { width := 4, height := 4 } 1 3 1 = true := by decide
  have hb0 : WorldChunk.inBounds { width := 4, height := 4 } 1 0 1 = true := by decide
  refine ⟨hb2, ?_, ?_, ?_⟩
  · rw [generateTerrain_column_shape.2.2 1 (fun _ _ => 0) 0 0 WorldChunk.initializeTerrain
      1 2 1 hb2]
    norm_num
  · rw [generateTerrain_column_shape.2.2 1 (fun _ _ => 0) 0 0 WorldChunk.initializeTerrain
      1 3 1 hb3]
    norm_num
  · rw [generateTerrain_column_shape.2.2 1 (fun _ _ => 0) 0 0 WorldChunk.initializeTerrain
      1 0 1 hb0]
    simp [WorldChunk.initializeTerrain, blocks.emptyId]

theorem update_children_foldl (L : List (ℤ × ℤ)) (w : World) :
    (L.foldl (fun wc c => World.generateChunk wc c.1 c.2) w).children =
      w.children ++ L.map streamChunk := by
  induction L generalizing w with
  | nil => simp
  | cons c rest ih =>
    simp only [List.foldl_cons, List.map_cons]
    rw [ih]
    unfold World.generateChunk streamChunk
    simp

theorem find?_pair_isSome (L : List (ℤ × ℤ)) (a b : ℤ) :
    (L.find? fun vc => decide (vc.1 = a ∧ vc.2 = b)).isSome = true ↔ (a, b) ∈ L := by
  induction L with
  | nil => simp
  | cons hd tl ih =>
    by_cases h : hd.1 = a ∧ hd.2 = b
    · have : hd = (a, b) := by
        obtain ⟨h1, h2⟩ := h
        obtain ⟨x, y⟩ := hd
        simp_all
      simp [List.find?, h, this]
    · have hne : (a, b) ≠ hd := by
        intro he
        exact h (by rw [← he]; exact ⟨rfl, rfl⟩)
      rw [List.find?]
      rw [show (decide (hd.1 = a ∧ hd.2 = b)) = false by simpa using h]
      simp only [List.mem_cons]
      rw [ih]
      constructor
      · intro hm; exact Or.inr hm
      · rintro (he | hm)
        · exact absurd he hne
        · exact hm

theorem find?_pair_isNone (L : List (ℤ × ℤ)) (a b : ℤ) :
    (L.find? fun uc => decide (a = uc.1 ∧ b = uc.2)).isNone = true ↔ (a, b) ∉ L := by
  have hsame : (L.find? fun uc => decide (a = uc.1 ∧ b = uc.2)) =
      (L.find? fun uc => decide (uc.1 = a ∧ uc.2 = b)) := by
    congr 1
    funext uc
    by_cases h : uc.1 = a ∧ uc.2 = b
    · simp [h.1, h.2]
    · have h' : ¬(a = uc.1 ∧ b = uc.2) := fun hc => h ⟨hc.1.symm, hc.2.symm⟩
      simp [h, h']
  rw [hsame, Option.isNone_iff_eq_none, ← Option.not_isSome_iff_eq_none]
  constructor
  · intro hn hm
    exact hn (by rw [find?_pair_isSome]; exact hm)
  · intro hn hs
    exact hn ((find?_pair_isSome L a b).mp (by simpa using hs))

theorem filter_key_map (L : List Chunk) (vis : List (ℤ × ℤ)) :
    ((L.filter fun c => (vis.find? fun vc => decide (vc.1 = c.cx ∧ vc.2 = c.cz)).isSome).map
        Chunk.key) =
      (L.map Chunk.key).filter fun k =>
        (vis.find? fun vc => decide (vc.1 = k.1 ∧ vc.2 = k.2)).isSome := by
  induction L with
  | nil => simp
  | cons c rest ih =>
    by_cases h : (vis.find? fun vc => decide (vc.1 = c.cx ∧ vc.2 = c.cz)).isSome = true
    · rw [List.filter_cons, if_pos h, List.map_cons, List.map_cons, List.filter_cons,
        if_pos (by exact h), ih]
    · rw [List.filter_cons, if_neg h, List.map_cons, List.filter_cons,
        if_neg (by exact h), ih]

theorem mem_getVisivleChunks (w : World) (px pz : ℚ) (k : ℤ × ℤ) :
    k ∈ World.getVisivleChunks w px pz ↔
      |k.1 - ⌊px / (w.chunkSize.width : ℚ)⌋| ≤ (w.drawDistance : ℤ) ∧
      |k.2 - ⌊pz / (w.chunkSize.width : ℚ)⌋| ≤ (w.drawDistance : ℤ) := by
  obtain ⟨ka, kb⟩ := k
  unfold World.getVisivleChunks World.worldToChunkCoordsPos
  dsimp only
  simp only [List.mem_flatMap, List.mem_map, mem_intRange]
  rw [abs_le, abs_le]
  constructor
  · rintro ⟨x, hx, z, hz, heq⟩
    obtain ⟨rfl, rfl⟩ : x = ka ∧ z = kb := by
      simpa [Prod.ext_iff] using heq
    omega
  · rintro ⟨h1, h2⟩
    exact ⟨ka, by omega, kb, by omega, rfl⟩

theorem update_keeps_size (w : World) (px pz : ℚ) :
    (World.update w px pz).chunkSize = w.chunkSize ∧
    (World.update w px pz).drawDistance = w.drawDistance := by
  unfold World.update
  dsimp only
  have hfold : ∀ (L : List (ℤ × ℤ)) (w0 : World),
      (L.foldl (fun wc c => World.generateChunk wc c.1 c.2) w0).chunkSize = w0.chunkSize ∧
      (L.foldl (fun wc c => World.generateChunk wc c.1 c.2) w0).drawDistance =
        w0.drawDistance := by
    intro L
    induction L with
    | nil => intro w0; exact ⟨rfl, rfl⟩
    | cons c rest ih =>
      intro w0
      simp only [List.foldl_cons]
      rw [(ih (World.generateChunk w0 c.1 c.2)).1, (ih (World.generateChunk w0 c.1 c.2)).2]
      exact ⟨rfl, rfl⟩
  exact hfold _ _

theorem update_children (w : World) (px pz : ℚ) :
    (World.update w px pz).children =
      (World.removeUnusedChunks w (World.getVisivleChunks w px pz)).children ++
        (World.getChunksToAdd w (World.getVisivleChunks w px pz)).map streamChunk := by
  unfold World.update
  dsimp only
  rw [update_children_foldl]

/-- C5: after `World.update`, the registry's key set is exactly the Chebyshev
    square of radius `drawDistance` around the observer's chunk; concretely,
    with `drawDistance = 1`, an observer in chunk (0, 0) leaves exactly the 9
    chunks of `{-1,0,1} × {-1,0,1}`, and a subsequent update from chunk (5, 5)
    (position 320 with width 64) leaves exactly the 9 chunks around (5, 5),
    none of which overlaps the original 9. -/
theorem update_registry_visible_set :
    (∀ (w : World) (px pz : ℚ) (k : ℤ × ℤ),
        k ∈ (World.update w px pz).children.map Chunk.key ↔
          |k.1 - ⌊px / (w.chunkSize.width : ℚ)⌋| ≤ (w.drawDistance : ℤ) ∧
          |k.2 - ⌊pz / (w.chunkSize.width : ℚ)⌋| ≤ (w.drawDistance : ℤ)) ∧
    (World.update streamWorldInit 0 0).children.map Chunk.key = visibleSquare0 ∧
    (World.update (World.update streamWorldInit 0 0) 320 320).children.map Chunk.key =
      visibleSquare5 ∧
    ∀ k ∈ visibleSquare0, k ∉ visibleSquare5 := by
  have hgen : ∀ (w : World) (px pz : ℚ) (k : ℤ × ℤ),
      k ∈ (World.update w px pz).children.map Chunk.key ↔
        |k.1 - ⌊px / (w.chunkSize.width : ℚ)⌋| ≤ (w.drawDistance : ℤ) ∧
        |k.2 - ⌊pz / (w.chunkSize.width : ℚ)⌋| ≤ (w.drawDistance : ℤ) := by
    intro w px pz k
    obtain ⟨ka, kb⟩ := k
    rw [← mem_getVisivleChunks w px pz (ka, kb)]
    rw [update_children, List.map_append, List.mem_append]
    have hkept : ((ka, kb) ∈ ((World.removeUnusedChunks w
          (World.getVisivleChunks w px pz)).children.map Chunk.key)) ↔
        ((ka, kb) ∈ w.children.map Chunk.key ∧
          (ka, kb) ∈ World.getVisivleChunks w px pz) := by
      unfold World.removeUnusedChunks
      dsimp only
      rw [filter_key_map, List.mem_filter]
      constructor
      · rintro ⟨hm, hp⟩
        exact ⟨hm, (find?_pair_isSome _ ka kb).mp hp⟩
      · rintro ⟨hm, hv⟩
        exact ⟨hm, (find?_pair_isSome _ ka kb).mpr hv⟩
    have hadd : ((ka, kb) ∈ ((World.getChunksToAdd w
          (World.getVisivleChunks w px pz)).map streamChunk).map Chunk.key) ↔
        ((ka, kb) ∈ World.getVisivleChunks w px pz ∧
          ¬ (ka, kb) ∈ w.children.map Chunk.key) := by
      rw [List.map_map]
      have : (Chunk.key ∘ streamChunk) = id := by
        funext c
        rfl
      rw [this, List.map_id]
      unfold World.getChunksToAdd
      rw [List.mem_filter]
      constructor
      · rintro ⟨hv, hp⟩
        exact ⟨hv, (find?_pair_isNone _ ka kb).mp hp⟩
      · rintro ⟨hv, hn⟩
        exact ⟨hv, (find?_pair_isNone _ ka kb).mpr hn⟩
    rw [hkept, hadd]
    tauto
  have hvis0 : World.getVisivleChunks streamWorldInit 0 0 = visibleSquare0 := by
    unfold World.getVisivleChunks
    rw [show World.worldToChunkCoordsPos streamWorldInit.chunkSize.width 0 0 = (0, 0) by
      unfold World.worldToChunkCoordsPos
      norm_num]
    decide
  have hch0 : (World.update streamWorldInit 0 0).children = visibleSquare0.map streamChunk := by
    rw [update_children, hvis0,
      show World.getChunksToAdd streamWorldInit visibleSquare0 = visibleSquare0 by decide]
    rfl
  have hk0 : (World.update streamWorldInit 0 0).children.map Chunk.key = visibleSquare0 := by
    rw [hch0]
    decide
  have hvis5 : World.getVisivleChunks (World.update streamWorldInit 0 0) 320 320 =
      visibleSquare5 := by
    unfold World.getVisivleChunks
    rw [(update_keeps_size streamWorldInit 0 0).1, (update_keeps_size streamWorldInit 0 0).2]
    rw [show World.worldToChunkCoordsPos streamWorldInit.chunkSize.width 320 320 = (5, 5) by
      unfold World.worldToChunkCoordsPos
      simp only [streamWorldInit]
      norm_num]
    decide
  have hk5 : (World.update (World.update streamWorldInit 0 0) 320 320).children.map Chunk.key =
      visibleSquare5 := by
    rw [update_children, hvis5, List.map_append]
    have hkept5 : ((World.removeUnusedChunks (World.update streamWorldInit 0 0)
        visibleSquare5).children).map Chunk.key = [] := by
      unfold World.removeUnusedChunks
      dsimp only
      rw [filter_key_map, hk0]
      decide
    have hadd5 : World.getChunksToAdd (World.update streamWorldInit 0 0) visibleSquare5 =
        visibleSquare5 := by
      unfold World.getChunksToAdd
      rw [hk0]
      decide
    rw [hkept5, hadd5]
    decide
  exact ⟨hgen, hk0, hk5, by decide⟩

/-- C1 (refutation): the neighbor-visibility propagation of `addBlock` and
    `removeBlock` is swapped in the source.  Removal scenario: (1, 1, 1) is
    obscured (no instance) and (1, 2, 1) above it is solid; `removeBlock`
    empties (1, 2, 1), after which (1, 1, 1) is exposed — the claim requires
    it to receive a render instance, but the code calls `hideBlock` on the
    neighbors (whose obscured-guard fails), so (1, 1, 1) still has no
    instance.  Addition scenario: (1, 1, 1) is visible with instance 4 and
    (1, 2, 1) above it is empty; `addBlock` fills (1, 2, 1), after which
    (1, 1, 1) is fully surrounded — the claim requires its instance to be
    removed, but the code calls `revealBlock` on the neighbors, so the
    instance survives. -/
theorem addRemoveBlock_propagation_swapped :
    WorldChunk.isBlockObscured sizeThree removalData 1 1 1 = true ∧
    removalData (1, 1, 1) = { id := 3, instanceId := none } ∧
    ((World.getChunk (World.removeBlock removalWorld 1 2 1) 0 0).map
        fun c => c.data (1, 2, 1)) = some { id := 0, instanceId := none } ∧
    ((World.getChunk (World.removeBlock removalWorld 1 2 1) 0 0).map
        fun c => WorldChunk.isBlockObscured sizeThree c.data 1 1 1) = some false ∧
    ((World.getChunk (World.removeBlock removalWorld 1 2 1) 0 0).map
        fun c => c.data (1, 1, 1)) = some { id := 3, instanceId := none } ∧
    WorldChunk.isBlockObscured sizeThree additionData 1 1 1 = false ∧
    additionData (1, 1, 1) = { id := 3, instanceId := some 4 } ∧
    ((World.getChunk (World.addBlock additionWorld 1 2 1 1) 0 0).map
        fun c => (c.data (1, 2, 1)).id) = some 1 ∧
    ((World.getChunk (World.addBlock additionWorld 1 2 1 1) 0 0).map
        fun c => WorldChunk.isBlockObscured sizeThree c.data 1 1 1) = some true ∧
    ((World.getChunk (World.addBlock additionWorld 1 2 1 1) 0 0).map
        fun c => c.data (1, 1, 1)) = some { id := 3, instanceId := some 4 } := by
  decide

/-- C10: `isBlockObscured(x, y, z)` never reads the voxel at (x, y, z) itself —
    two grids agreeing everywhere except that cell get the same answer — so an
    EMPTY voxel whose six in-bounds neighbors are all solid counts as
    obscured; consequently `World.hideBlock`, which guards only on
    `isBlockObscured`, deletes the render instance entry at an empty
    coordinate. -/
theorem isBlockObscured_ignores_center :
    (∀ (size : ChunkSize) (d d' : ChunkData) (x y z : ℤ),
        (∀ q : Coord, q ≠ (x, y, z) → d q = d' q) →
          WorldChunk.isBlockObscured size d x y z = WorldChunk.isBlockObscured size d' x y z) ∧
    emptyCenterData (1, 1, 1) = { id := blocks.emptyId, instanceId := some 7 } ∧
    WorldChunk.isBlockObscured sizeThree emptyCenterData 1 1 1 = true ∧
    ((World.getChunk (World.hideBlock emptyCenterWorld 1 1 1) 0 0).map
        fun c => c.data (1, 1, 1)) = some { id := blocks.emptyId, instanceId := none } := by
  refine ⟨?_, by decide, by decide, by decide⟩
  intro size d d' x y z h
  have e : ∀ (a b c : ℤ), ((a, b, c) : Coord) ≠ (x, y, z) →
      WorldChunk.fetchIdOrEmpty size d a b c = WorldChunk.fetchIdOrEmpty size d' a b c := by
    intro a b c hne
    unfold WorldChunk.fetchIdOrEmpty WorldChunk.getBlock
    rw [h (a, b, c) hne]
  unfold WorldChunk.isBlockObscured
  rw [e x (y + 1) z (by simp [Prod.ext_iff]),
    e x (y - 1) z (by simp [Prod.ext_iff]),
    e (x + 1) y z (by simp [Prod.ext_iff]),
    e (x - 1) y z (by simp [Prod.ext_iff]),
    e x y (z + 1) (by simp [Prod.ext_iff]),
    e x y (z - 1) (by simp [Prod.ext_iff])]

theorem isBlockObscured_ignores_center_witness :
    WorldChunk.isBlockObscured sizeThree emptyCenterData 1 1 1 =
      WorldChunk.isBlockObscured sizeThree solidCenterData 1 1 1 ∧
    WorldChunk.isBlockObscured sizeThree emptyCenterData 1 1 1 = true := by
  refine ⟨isBlockObscured_ignores_center.1 sizeThree emptyCenterData solidCenterData
    1 1 1 ?_, by decide⟩
  intro q hq
  unfold emptyCenterData solidCenterData
  rw [if_neg hq, if_neg hq]

